import Mathlib

/-!
Verification development for douyin_mcp_server/server.py
(repository JasonLeemz/douyin-mcp-server).

The Python module is shallowly embedded: Python strings are Lean String
values, Python bytes chunks are List Nat, JSON values are the inductive
Json type below, and Python exceptions are the PyErr type, with fallible
code returning Except PyErr.

External collaborators (the requests HTTP client, json.loads, the MCP
context and the filesystem) enter the model as explicit oracles passed to
the embedded functions.  The resolver additionally returns the list of
URLs it passes to the HTTP oracle, in request order, so that the absence
of network traffic on an error path is observable in the model.

Modelling notes, recorded where the embedding abstracts a Python detail:
the ASCII whitespace class of Char.isWhitespace stands in for the Unicode
whitespace classes used by str.strip and the regex shorthand for spaces;
the content-length header is taken as an optional natural number, so a
malformed non-numeric header value is out of the model; error payloads of
library exceptions (HTTPError, JSONDecodeError) are represented by bare
constructors.
-/

namespace DouyinMCP

/-- Bytes yielded by one response.iter_content step. -/
abbrev Chunk := List Nat

/-- Python exceptions that the embedded code can raise. -/
inductive PyErr where
  | valueError : String → PyErr
  | keyError : String → PyErr
  | typeError : String → PyErr
  | attributeError : String → PyErr
  | indexError : PyErr
  | httpError : PyErr
  | jsonDecodeError : PyErr
  | exception : String → PyErr

/-- Python str of an exception, as interpolated into the JSON error envelopes. -/
def PyErr.str : PyErr → String
  | PyErr.valueError m => m
  | PyErr.keyError k => ("'") ++ k ++ ("'")
  | PyErr.typeError m => m
  | PyErr.attributeError m => m
  | PyErr.indexError => ("list index out of range")
  | PyErr.httpError => ("HTTPError")
  | PyErr.jsonDecodeError => ("JSONDecodeError")
  | PyErr.exception m => m

/-- JSON values, the output type of the json.loads oracle. -/
inductive Json where
  | null : Json
  | bool : Bool → Json
  | num : Int → Json
  | str : String → Json
  | arr : List Json → Json
  | obj : List (String × Json) → Json

/-- Python subscript j\x5bk\x5d with a string key: a KeyError on a dict
missing the key, a TypeError on any non-dict value. -/
def Json.getKey (j : Json) (k : String) : Except PyErr Json :=
  match j with
  | Json.obj fields =>
    match fields.lookup k with
    | some v => Except.ok v
    | none => Except.error (PyErr.keyError k)
  | _ => Except.error (PyErr.typeError ("object is not subscriptable with a string key"))

/-- Python subscript j\x5b0\x5d: the head of a list, an IndexError on an
empty list, a TypeError on any non-list value. -/
def Json.getIndex0 (j : Json) : Except PyErr Json :=
  match j with
  | Json.arr [] => Except.error PyErr.indexError
  | Json.arr (x :: _) => Except.ok x
  | _ => Except.error (PyErr.typeError ("object is not subscriptable with an integer key"))

/-- A value on which a Python string method is invoked must be a str;
anything else raises AttributeError. -/
def Json.asString (j : Json) : Except PyErr String :=
  match j with
  | Json.str s => Except.ok s
  | _ => Except.error (PyErr.attributeError ("value has no string methods"))

/-- Suffix strictly after the first occurrence of marker, if any. -/
def afterFirst (marker : List Char) : List Char → Option (List Char)
  | [] => if marker.isEmpty then some [] else none
  | c :: cs =>
    if marker.isPrefixOf (c :: cs) then some ((c :: cs).drop marker.length)
    else afterFirst marker cs

/-- Characters strictly before the first occurrence of marker, if any. -/
def beforeFirst (marker : List Char) : List Char → Option (List Char)
  | [] => if marker.isEmpty then some [] else none
  | c :: cs =>
    if marker.isPrefixOf (c :: cs) then some []
    else (beforeFirst marker cs).map (fun l => c :: l)

/-- Python substring membership test for str operands of the in operator. -/
def containsSub (needle hay : String) : Bool :=
  (afterFirst needle.data hay.data).isSome

/-- Python membership k in j for a string k: key lookup on a dict, element
equality on a list (a string k equals only an equal str element), substring
test on a str, TypeError otherwise. -/
def Json.hasMember (j : Json) (k : String) : Except PyErr Bool :=
  match j with
  | Json.obj fields => Except.ok (fields.lookup k).isSome
  | Json.arr xs =>
    Except.ok (xs.any (fun x =>
      match x with
      | Json.str s => s == k
      | _ => false))
  | Json.str s => Except.ok (containsSub k s)
  | _ => Except.error (PyErr.typeError ("argument is not iterable"))

/-- Python dict.get k with a default; AttributeError on a non-dict receiver. -/
def Json.pyGet (j : Json) (k : String) (dflt : Json) : Except PyErr Json :=
  match j with
  | Json.obj fields => Except.ok ((fields.lookup k).getD dflt)
  | _ => Except.error (PyErr.attributeError ("value has no attribute get"))

/-- Python str.strip with no arguments (whitespace at both ends removed). -/
def pyStrip (s : String) : String :=
  String.mk (((s.data.dropWhile Char.isWhitespace).reverse.dropWhile Char.isWhitespace).reverse)

/-- One replacement pass of Python str.replace: scan left to right, on a
pattern occurrence emit the replacement and continue after the occurrence.
Fuel bounds the recursion; each step consumes at least one input character,
so fuel equal to the input length is exact for a nonempty pattern. -/
def replaceAllAux (pat rep : List Char) : Nat → List Char → List Char
  | 0, cs => cs
  | _, [] => []
  | Nat.succ fuel, c :: cs =>
    if pat.isPrefixOf (c :: cs) then rep ++ replaceAllAux pat rep fuel ((c :: cs).drop pat.length)
    else c :: replaceAllAux pat rep fuel cs

/-- Python str.replace for a nonempty pattern: every non-overlapping
occurrence, left to right, is replaced.  The source only calls it with the
nonempty pattern playwm; an empty pattern is mapped to the identity. -/
def replaceAll (s pat rep : String) : String :=
  if pat.data.isEmpty then s
  else String.mk (replaceAllAux pat.data rep.data s.data.length s.data)

/-- Character class of the URL body in the findall pattern of server.py
line 45: letters, digits, the range from dollar to underscore, the extra
punctuation alternatives, listed exactly as the regex lists them.  A percent
sign falls inside the dollar-to-underscore range, so the two-hex-digit
escape alternative never fires first and the whole body is one character
class. -/
def urlBodyChar (c : Char) : Bool :=
  (('a' ≤ c && c ≤ 'z') || ('A' ≤ c && c ≤ 'Z')) ||
  ('0' ≤ c && c ≤ '9') ||
  (('$' ≤ c && c ≤ '_') || c == '@' || c == '.' || c == '&' || c == '+') ||
  (c == '!' || c == '*' || c == '(' || c == ')' || c == ',')

/-- Match of the share-URL regex anchored at the head of the character
list: the literal http, an optional s, the separator, then one or more
body characters taken greedily.  Returns the matched text and the rest. -/
def matchUrlAt (cs : List Char) : Option (String × List Char) :=
  match cs with
  | 'h' :: 't' :: 't' :: 'p' :: rest =>
    match rest with
    | 's' :: ':' :: '/' :: '/' :: rs =>
      let body := rs.takeWhile urlBodyChar
      if body.isEmpty then none
      else some (String.mk ('h' :: 't' :: 't' :: 'p' :: 's' :: ':' :: '/' :: '/' :: body),
        rs.dropWhile urlBodyChar)
    | ':' :: '/' :: '/' :: rs =>
      let body := rs.takeWhile urlBodyChar
      if body.isEmpty then none
      else some (String.mk ('h' :: 't' :: 't' :: 'p' :: ':' :: '/' :: '/' :: body),
        rs.dropWhile urlBodyChar)
    | _ => none
  | _ => none

/-- re.findall scan: leftmost matches, non-overlapping, resuming after each
match.  Fuel bounds the recursion; every step consumes at least one
character, so fuel equal to the input length is exact. -/
def findUrlsAux : Nat → List Char → List String
  | 0, _ => []
  | Nat.succ fuel, cs =>
    match cs with
    | [] => []
    | c :: rest =>
      match matchUrlAt (c :: rest) with
      | some (m, after) => m :: findUrlsAux fuel after
      | none => findUrlsAux fuel rest

/-- All share-URL matches in the share text, in order (server.py line 45). -/
def findUrls (s : String) : List String :=
  findUrlsAux s.data.length s.data

/-- Python split on a question mark, first component. -/
def takeBeforeQuery (s : String) : String :=
  String.mk (s.data.takeWhile (fun c => c ≠ '?'))

/-- Python str.strip with a slash argument: slashes removed at both ends. -/
def stripSlashes (s : String) : String :=
  String.mk (((s.data.dropWhile (fun c => c = '/')).reverse.dropWhile (fun c => c = '/')).reverse)

/-- Python split on slash, last component. -/
def lastSegment (s : String) : String :=
  String.mk ((s.data.reverse.takeWhile (fun c => c ≠ '/')).reverse)

/-- Video id extraction from the redirected share URL (server.py line 52). -/
def extractVideoId (finalUrl : String) : String :=
  lastSegment (stripSlashes (takeBeforeQuery finalUrl))

/-- Literal marker of the router-data regex on server.py line 60. -/
def routerMarker : List Char := String.data ("window._ROUTER_DATA")

/-- Closing tag that bounds the lazy group of the router-data regex. -/
def scriptClose : List Char := String.data ("</script>")

/-- re.search of the DOTALL pattern on server.py lines 59 to 62: at each
occurrence of the literal marker, skip whitespace, require an equals sign,
skip whitespace, and capture up to the first closing script tag; on failure
at one occurrence the scan resumes at later occurrences.  A later occurrence
sees a suffix of the text, so a missing closing tag fails everywhere, which
matches the regex backtracking behavior. -/
def routerDataSearch : List Char → Option (List Char)
  | [] => none
  | c :: cs =>
    (if routerMarker.isPrefixOf (c :: cs) then
      match ((c :: cs).drop routerMarker.length).dropWhile Char.isWhitespace with
      | '=' :: rest => beforeFirst scriptClose (rest.dropWhile Char.isWhitespace)
      | _ => none
    else none).orElse (fun _ => routerDataSearch cs)

/-- Result record of a successful resolution (server.py lines 89 to 93). -/
structure VideoInfo where
  url : String
  title : String
  video_id : String

/-- Response of the HTTP oracle: the final URL after redirects, the success
flag consulted by raise_for_status, and the body text. -/
structure HttpResponse where
  url : String
  ok : Bool
  text : String

/-- First loaderData key probed by the resolver (server.py line 70). -/
def videoPageKey : String := "video_(id)/page"

/-- Fallback loaderData key probed by the resolver (server.py line 71). -/
def notePageKey : String := "note_(id)/page"

/-- Key dispatch of server.py lines 73 to 78: probe the video page key,
fall back to the note page key, read videoInfoRes under the matched key,
raise the dedicated Exception when neither key is present. -/
def extractRecord (loader : Json) : Except PyErr Json :=
  match loader.hasMember videoPageKey with
  | Except.error e => Except.error e
  | Except.ok true =>
    match loader.getKey videoPageKey with
    | Except.error e => Except.error e
    | Except.ok v => v.getKey ("videoInfoRes")
  | Except.ok false =>
    match loader.hasMember notePageKey with
    | Except.error e => Except.error e
    | Except.ok true =>
      match loader.getKey notePageKey with
      | Except.error e => Except.error e
      | Except.ok v => v.getKey ("videoInfoRes")
    | Except.ok false => Except.error (PyErr.exception ("无法从JSON中解析视频或图集信息"))

/-- Walk from the parsed router JSON to the first item record
(server.py lines 73 to 80): loaderData, key dispatch, item_list, head. -/
def recordOf (j : Json) : Except PyErr Json :=
  match j.getKey ("loaderData") with
  | Except.error e => Except.error e
  | Except.ok loader =>
    match extractRecord loader with
    | Except.error e => Except.error e
    | Except.ok ovi =>
      match ovi.getKey ("item_list") with
      | Except.error e => Except.error e
      | Except.ok il => il.getIndex0

/-- Raw playback URL of the record, before the watermark substitution
(server.py line 83): video, play_addr, url_list, head, as a string. -/
def rawPlayUrl (j : Json) : Except PyErr String :=
  match recordOf j with
  | Except.error e => Except.error e
  | Except.ok data =>
    match data.getKey ("video") with
    | Except.error e => Except.error e
    | Except.ok v =>
      match v.getKey ("play_addr") with
      | Except.error e => Except.error e
      | Except.ok pa =>
        match pa.getKey ("url_list") with
        | Except.error e => Except.error e
        | Except.ok ul =>
          match ul.getIndex0 with
          | Except.error e => Except.error e
          | Except.ok f => f.asString

/-- Raw description of the record (server.py line 84): dict.get with an
empty-string default, then the receiver must be a str. -/
def rawDesc (j : Json) : Except PyErr String :=
  match recordOf j with
  | Except.error e => Except.error e
  | Except.ok data =>
    match data.pyGet ("desc") (Json.str ("")) with
    | Except.error e => Except.error e
    | Except.ok dj => dj.asString

/-- Title selection of server.py line 84: the stripped description, or the
douyin prefix joined with the video id when the stripped description is
empty (Python or returns its right operand on a falsy left operand). -/
def descOf (video_id : String) (j : Json) : Except PyErr String :=
  match rawDesc j with
  | Except.error e => Except.error e
  | Except.ok s =>
    Except.ok (if pyStrip s = "" then ("douyin_") ++ video_id else pyStrip s)

/-- Characters the sanitizing regex of server.py line 87 replaces. -/
def illegalChars : List Char := ['\\', '/', ':', '*', '?', '"', '<', '>', '|']

/-- One character of the sanitizing substitution. -/
def sanitizeChar (c : Char) : Char :=
  if illegalChars.contains c then '_' else c

/-- re.sub of server.py line 87: every illegal character becomes an
underscore. -/
def sanitize (s : String) : String :=
  String.mk (s.data.map sanitizeChar)

/-- Boolean check that a string holds no illegal filesystem character. -/
def noIllegal (s : String) : Bool :=
  s.data.all (fun c => !(illegalChars.contains c))

/-- Body of parse_share_url after json.loads succeeded (server.py lines 73
to 93): locate the record, build the watermark-free URL, select and
sanitize the title, assemble the VideoInfo.  The record walk is shared by
rawPlayUrl and rawDesc; since the walk is pure, evaluating it twice equals
the single evaluation the Python code performs, and the error precedence
of the source (record errors, then playback-URL errors, then description
errors) is preserved. -/
def resolveBody (video_id : String) (j : Json) : Except PyErr VideoInfo :=
  match rawPlayUrl j with
  | Except.error e => Except.error e
  | Except.ok raw =>
    match descOf video_id j with
    | Except.error e => Except.error e
    | Except.ok d =>
      Except.ok ⟨replaceAll raw ("playwm") ("play"), sanitize d, video_id⟩

/-- Detail page URL template of server.py line 53. -/
def detailUrlOf (video_id : String) : String :=
  ("https://www.iesdouyin.com/share/video/") ++ video_id

/-- Stages of parse_share_url up to json.loads (server.py lines 44 to 69):
URL scan over the share text, first GET and video id extraction from the
redirected URL, second GET with raise_for_status, router-data regex scan,
empty-group check, json.loads.  The second component of the result is the
list of URLs handed to the HTTP oracle, in request order. -/
def routerJson (net : String → HttpResponse) (loads : String → Except PyErr Json)
    (share_link : String) : Except PyErr (String × Json) × List String :=
  match findUrls share_link with
  | [] => (Except.error (PyErr.valueError ("未找到有效的分享链接")), [])
  | share_url :: _ =>
    let shareResp := net share_url
    let video_id := extractVideoId shareResp.url
    let detail_url := detailUrlOf video_id
    let resp := net detail_url
    let log := [share_url, detail_url]
    if resp.ok = false then (Except.error PyErr.httpError, log)
    else
      match routerDataSearch resp.text.data with
      | none => (Except.error (PyErr.valueError ("从HTML中解析视频信息失败")), log)
      | some g =>
        if g.isEmpty then (Except.error (PyErr.valueError ("从HTML中解析视频信息失败")), log)
        else
          match loads (pyStrip (String.mk g)) with
          | Except.error e => (Except.error e, log)
          | Except.ok j => (Except.ok (video_id, j), log)

/-- DouyinProcessor.parse_share_url (server.py lines 42 to 93), with the
HTTP and JSON oracles explicit and the issued requests logged. -/
def parse_share_url (net : String → HttpResponse) (loads : String → Except PyErr Json)
    (share_link : String) : Except PyErr VideoInfo × List String :=
  match routerJson net loads share_link with
  | (Except.error e, log) => (Except.error e, log)
  | (Except.ok (video_id, j), log) => (resolveBody video_id j, log)

/-- Events observable through the MCP context during a download. -/
inductive DlEvent where
  | info : String → DlEvent
  | progress : Nat → Nat → DlEvent

/-- Streaming GET response consumed by the downloader: success flag, the
optional content-length header value, and the chunk sequence that
iter_content yields. -/
structure DlResponse where
  ok : Bool
  contentLength : Option Nat
  chunks : List Chunk

/-- One iteration of the download loop of server.py lines 111 to 117 over
the state file bytes, downloaded counter, progress events: a falsy (empty)
chunk is skipped entirely; a non-empty chunk is written, counted with its
length, and reported only when the total size is positive. -/
def processChunk (total : Nat) (st : List Nat × Nat × List DlEvent) (chunk : Chunk) :
    List Nat × Nat × List DlEvent :=
  if chunk.isEmpty then st
  else
    (st.1 ++ chunk, st.2.1 + chunk.length,
      if 0 < total then st.2.2 ++ [DlEvent.progress (st.2.1 + chunk.length) total]
      else st.2.2)

/-- The download loop of server.py lines 109 to 117 from the initial state. -/
def downloadLoop (total : Nat) (chunks : List Chunk) : List Nat × Nat × List DlEvent :=
  chunks.foldl (processChunk total) ([], 0, [])

/-- DouyinProcessor.download_video (server.py lines 95 to 120): build the
destination path, log the start, GET the stream, raise_for_status, read the
content length with default zero, run the chunk loop, log completion.
Returns the path with the written file bytes, and the context events. -/
def download_video (cache_dir : String) (video_info : VideoInfo) (resp : DlResponse) :
    Except PyErr (String × List Nat) × List DlEvent :=
  let filepath := cache_dir ++ ("/") ++ video_info.title ++ (".mp4")
  let evs0 := [DlEvent.info (("正在下载视频: ") ++ video_info.title)]
  if resp.ok = false then (Except.error PyErr.httpError, evs0)
  else
    let r := downloadLoop (resp.contentLength.getD 0) resp.chunks
    (Except.ok (filepath, r.1),
      evs0 ++ r.2.2 ++ [DlEvent.info (("视频下载完成: ") ++ filepath)])

/-- Attribute state of a DouyinProcessor instance.  The temp_dir field is
optional because Python attributes come into existence only on assignment
and the finalizer probes it with hasattr. -/
structure DouyinProcessor where
  cache_dir : String
  share_link : String
  temp_dir : Option String

/-- DouyinProcessor.__init__ (server.py lines 31 to 34): assigns cache_dir
and share_link only; no temp_dir attribute is ever created. -/
def DouyinProcessor.init (share_link : String) : DouyinProcessor :=
  ⟨("../tmp"), share_link, none⟩

/-- DouyinProcessor.__del__ (server.py lines 36 to 40) against a directory
existence oracle: returns the directories removed by shutil.rmtree, which
is the guarded temp_dir when the attribute exists and the path exists. -/
def DouyinProcessor.del (p : DouyinProcessor) (dirExists : String → Bool) : List String :=
  match p.temp_dir with
  | some d => if dirExists d then [d] else []
  | none => []

/-- Uniform JSON error envelope returned by the guarded tools. -/
def errEnvelope (msg : String) : Json :=
  Json.obj [(("status"), Json.str ("error")), (("error"), Json.str msg)]

/-- Tool get_douyin_download_link (server.py lines 123 to 151): the whole
body sits in a try block, so any raised error becomes the error envelope
with the prefixed message; an Except.error result would model an exception
escaping to the host and never occurs. -/
def get_douyin_download_link (net : String → HttpResponse)
    (loads : String → Except PyErr Json) (share_link : String) : Except PyErr Json :=
  match (parse_share_url net loads share_link).1 with
  | Except.ok vi =>
    Except.ok (Json.obj [
      (("status"), Json.str ("success")),
      (("video_id"), Json.str vi.video_id),
      (("title"), Json.str vi.title),
      (("download_url"), Json.str vi.url),
      (("description"), Json.str (("视频标题: ") ++ vi.title)),
      (("usage_tip"), Json.str ("可以直接使用此链接下载无水印视频"))])
  | Except.error e => Except.ok (errEnvelope (("获取下载链接失败: ") ++ e.str))

/-- Tool parse_douyin_video_info (server.py lines 154 to 180): the whole
body sits in a try block, so any raised error becomes the plain error
envelope. -/
def parse_douyin_video_info (net : String → HttpResponse)
    (loads : String → Except PyErr Json) (share_link : String) : Except PyErr Json :=
  match (parse_share_url net loads share_link).1 with
  | Except.ok vi =>
    Except.ok (Json.obj [
      (("video_id"), Json.str vi.video_id),
      (("title"), Json.str vi.title),
      (("download_url"), Json.str vi.url),
      (("status"), Json.str ("success"))])
  | Except.error e => Except.ok (errEnvelope e.str)

/-- Tool download_douyin_video (server.py lines 183 to 201): no try block,
so errors of the resolution and of the download stage surface as
Except.error, the model of an exception propagating to the host runtime.
The download oracle maps the resolved URL to the streaming response. -/
def download_douyin_video (net : String → HttpResponse)
    (loads : String → Except PyErr Json) (dl : String → DlResponse)
    (share_link : String) : Except PyErr Json × List DlEvent :=
  match (parse_share_url net loads share_link).1 with
  | Except.error e => (Except.error e, [])
  | Except.ok vi =>
    match download_video ("../tmp") vi (dl vi.url) with
    | (Except.error e, evs) => (Except.error e, evs)
    | (Except.ok (path, _file), evs) =>
      (Except.ok (Json.obj [(("status"), Json.str ("success")),
        (("video_path"), Json.str path)]), evs)

/-- Downloaded values carried by the progress events, in order. -/
def progressValues (evs : List DlEvent) : List Nat :=
  evs.filterMap (fun e =>
    match e with
    | DlEvent.progress d _ => some d
    | _ => none)

/-- Whether an event is a progress report. -/
def isProgressEv (e : DlEvent) : Bool :=
  match e with
  | DlEvent.progress _ _ => true
  | _ => false

/-- Specification trace of the download loop: the cumulative byte counts
reported after each non-empty chunk, starting from a given count. -/
def progressTrace : Nat → List Chunk → List Nat
  | _, [] => []
  | d, ch :: rest =>
    if ch.isEmpty then progressTrace d rest
    else (d + ch.length) :: progressTrace (d + ch.length) rest

/-- Concrete share text used by the witnesses. -/
def wShare : String := "https://v.douyin.com/ABCDEFG/ 复制此链接打开抖音"

/-- Share URL the regex extracts from the witness share text. -/
def wShareUrl : String := "https://v.douyin.com/ABCDEFG/"

/-- Concrete video id used by the witnesses. -/
def wVid : String := "7123456789012345678"

/-- Detail page URL of the witness video id. -/
def wDetailUrl : String := detailUrlOf wVid

/-- Item record of the witness payload. -/
def wRecord : Json :=
  Json.obj [
    (("video"), Json.obj [
      (("play_addr"), Json.obj [
        (("url_list"), Json.arr [Json.str ("https://aweme.snssdk.com/playwm/v0300f.mp4")])])]),
    (("desc"), Json.str ("A:B Test"))]

/-- Router JSON payload of the witness detail page. -/
def wJson : Json :=
  Json.obj [(("loaderData"), Json.obj [
    ((videoPageKey), Json.obj [
      (("videoInfoRes"), Json.obj [
        (("item_list"), Json.arr [wRecord])])])])]

/-- Witness HTTP oracle: the share URL redirects to the detail page with a
trailing slash and query string, and the detail page body holds the
router-data script block. -/
def wNet : String → HttpResponse := fun u =>
  if u = wDetailUrl then ⟨u, true, ("window._ROUTER_DATA = ROUTERPAYLOAD</script>")⟩
  else ⟨wDetailUrl ++ ("/?region=CN&u_code=x"), true, ("")⟩

/-- Witness JSON decoding oracle: decodes the witness payload text only. -/
def wLoads : String → Except PyErr Json := fun s =>
  if s = ("ROUTERPAYLOAD") then Except.ok wJson else Except.error PyErr.jsonDecodeError

/-- VideoInfo the witness resolution produces. -/
def wInfo : VideoInfo :=
  ⟨("https://aweme.snssdk.com/play/v0300f.mp4"), ("A_B Test"), wVid⟩

/-- Request log of the witness resolution. -/
def wLog : List String := [wShareUrl, wDetailUrl]

/-! Helper lemmas shared by several of the claim theorems. -/

/-- A successful parse factors through a successful routerJson stage and a
successful resolveBody stage. -/
theorem parse_ok_elim (net : String → HttpResponse) (loads : String → Except PyErr Json)
    (share : String) (info : VideoInfo) (log : List String)
    (hp : parse_share_url net loads share = (Except.ok info, log)) :
    ∃ vid j, (routerJson net loads share).1 = Except.ok (vid, j) ∧
      resolveBody vid j = Except.ok info := by
  unfold parse_share_url at hp
  cases hq : routerJson net loads share with
  | mk r l =>
    rw [hq] at hp
    cases r with
    | error e => simp at hp
    | ok p =>
      obtain ⟨vid, j⟩ := p
      refine ⟨vid, j, rfl, ?_⟩
      simpa using congrArg Prod.fst hp

/-- A successful resolveBody yields a playback URL and a selected
description, and determines every field of the result. -/
theorem resolveBody_ok_elim (vid : String) (j : Json) (info : VideoInfo)
    (h : resolveBody vid j = Except.ok info) :
    ∃ raw d, rawPlayUrl j = Except.ok raw ∧ descOf vid j = Except.ok d ∧
      info = ⟨replaceAll raw ("playwm") ("play"), sanitize d, vid⟩ := by
  unfold resolveBody at h
  cases hr : rawPlayUrl j with
  | error e => rw [hr] at h; simp at h
  | ok raw =>
    rw [hr] at h
    cases hd : descOf vid j with
    | error e => rw [hd] at h; simp at h
    | ok d =>
      rw [hd] at h
      simp at h
      exact ⟨raw, d, rfl, rfl, h.symm⟩

/-- The sanitizing substitution never outputs an illegal character. -/
theorem sanitizeChar_not_illegal (c : Char) :
    illegalChars.contains (sanitizeChar c) = false := by
  by_cases h : illegalChars.contains c = true
  · have hu : sanitizeChar c = '_' := by rw [sanitizeChar, if_pos h]
    rw [hu]; decide
  · have hc : sanitizeChar c = c := by rw [sanitizeChar, if_neg h]
    rw [hc]
    exact Bool.not_eq_true _ ▸ h

/-- A sanitized string passes the illegal-character check. -/
theorem noIllegal_sanitize (s : String) : noIllegal (sanitize s) = true := by
  show (s.data.map sanitizeChar).all (fun c => !(illegalChars.contains c)) = true
  rw [List.all_map]
  rw [List.all_eq_true]
  intro c _
  show (!(illegalChars.contains (sanitizeChar c))) = true
  rw [sanitizeChar_not_illegal c]
  rfl

/-- Filtering out bindings of a different key does not change a lookup. -/
theorem lookup_filter_other (fields : List (String × Json)) (k other : String)
    (hk : k ≠ other) :
    (fields.filter (fun p => p.1 != other)).lookup k = fields.lookup k := by
  induction fields with
  | nil => rfl
  | cons hd tl ih =>
    obtain ⟨k', v'⟩ := hd
    by_cases h1 : k' = other
    · subst h1
      have hne : (k == k') = false := by simpa using hk
      simp [List.filter_cons, List.lookup, hne, ih]
    · have h1b : (k' != other) = true := by simpa using h1
      simp [List.filter_cons, h1b, List.lookup, ih]

/-- Closed form of the download loop from an arbitrary starting state: the
file receives the flattened chunks, the counter advances by the summed
chunk lengths, and the events extend by the progress trace exactly when
the total is positive. -/
theorem foldl_processChunk (total : Nat) (chunks : List Chunk)
    (file0 : List Nat) (d0 : Nat) (evs0 : List DlEvent) :
    chunks.foldl (processChunk total) (file0, d0, evs0) =
      (file0 ++ chunks.flatten, d0 + (chunks.map List.length).sum,
        evs0 ++ (if 0 < total
          then (progressTrace d0 chunks).map (fun d => DlEvent.progress d total)
          else [])) := by
  induction chunks generalizing file0 d0 evs0 with
  | nil => simp [progressTrace]
  | cons ch rest ih =>
    rw [List.foldl_cons]
    by_cases hch : ch.isEmpty = true
    · have hnil : ch = [] := List.isEmpty_iff.mp hch
      subst hnil
      rw [show processChunk total (file0, d0, evs0) [] = (file0, d0, evs0) from rfl]
      rw [ih]
      simp [progressTrace]
    · have h1 : processChunk total (file0, d0, evs0) ch =
          (file0 ++ ch, d0 + ch.length,
            if 0 < total then evs0 ++ [DlEvent.progress (d0 + ch.length) total]
            else evs0) := by
        rw [processChunk, if_neg hch]
      rw [h1, ih]
      by_cases ht : 0 < total
      · simp [ht, progressTrace, hch, Nat.add_assoc]
      · simp [ht, progressTrace, hch, Nat.add_assoc]

/-- The download loop as a single tuple: written bytes, final counter,
events. -/
theorem downloadLoop_eq (total : Nat) (chunks : List Chunk) :
    downloadLoop total chunks =
      (chunks.flatten, (chunks.map List.length).sum,
        if 0 < total
        then (progressTrace 0 chunks).map (fun d => DlEvent.progress d total)
        else []) := by
  rw [downloadLoop, foldl_processChunk]
  simp

/-- Every value of the progress trace dominates the starting count. -/
theorem progressTrace_ge (chunks : List Chunk) :
    ∀ d x, x ∈ progressTrace d chunks → d ≤ x := by
  induction chunks with
  | nil => intro d x hx; simp [progressTrace] at hx
  | cons ch rest ih =>
    intro d x hx
    rw [progressTrace] at hx
    by_cases hch : ch.isEmpty = true
    · rw [if_pos hch] at hx
      exact ih d x hx
    · rw [if_neg hch] at hx
      rcases List.mem_cons.mp hx with h | h
      · exact h ▸ Nat.le_add_right d ch.length
      · exact Nat.le_trans (Nat.le_add_right d ch.length) (ih (d + ch.length) x h)

/-- The progress trace is monotonically non-decreasing. -/
theorem progressTrace_chain (chunks : List Chunk) :
    ∀ d, List.Chain' (fun a b => a ≤ b) (progressTrace d chunks) := by
  induction chunks with
  | nil => intro d; simp [progressTrace]
  | cons ch rest ih =>
    intro d
    rw [progressTrace]
    by_cases hch : ch.isEmpty = true
    · rw [if_pos hch]; exact ih d
    · rw [if_neg hch]
      refine List.chain'_cons'.mpr ⟨?_, ih (d + ch.length)⟩
      intro y hy
      exact progressTrace_ge rest (d + ch.length) y (List.mem_of_mem_head? hy)

/-- Chunks of zero total length produce an empty progress trace. -/
theorem progressTrace_nil_of_sum_zero (chunks : List Chunk) :
    ∀ d, (chunks.map List.length).sum = 0 → progressTrace d chunks = [] := by
  induction chunks with
  | nil => intro d _; rfl
  | cons ch rest ih =>
    intro d hsum
    rw [List.map_cons, List.sum_cons] at hsum
    have hch : ch.length = 0 := Nat.eq_zero_of_add_eq_zero_right hsum
    have hrest : (rest.map List.length).sum = 0 := Nat.eq_zero_of_add_eq_zero_left hsum
    have hemp : ch.isEmpty = true := List.isEmpty_iff.mpr (List.length_eq_zero.mp hch)
    rw [progressTrace, if_pos hemp]
    exact ih d hrest

/-- Prepending keeps an existing last element. -/
theorem getLast?_cons_of_some (x : Nat) (l : List Nat) (v : Nat)
    (h : l.getLast? = some v) : (x :: l).getLast? = some v := by
  cases l with
  | nil => simp at h
  | cons a l' => rw [List.getLast?_cons_cons]; exact h

/-- When the chunks carry at least one byte, the progress trace ends at the
starting count plus the total chunk length. -/
theorem progressTrace_getLast (chunks : List Chunk) :
    ∀ d, 0 < (chunks.map List.length).sum →
      (progressTrace d chunks).getLast? = some (d + (chunks.map List.length).sum) := by
  induction chunks with
  | nil => intro d h; simp at h
  | cons ch rest ih =>
    intro d hsum
    rw [List.map_cons, List.sum_cons] at hsum ⊢
    by_cases hch : ch.isEmpty = true
    · have hl : ch.length = 0 := List.length_eq_zero.mpr (List.isEmpty_iff.mp hch)
      rw [progressTrace, if_pos hch]
      rw [hl] at hsum ⊢
      rw [Nat.zero_add] at hsum ⊢
      exact ih d hsum
    · rw [progressTrace, if_neg hch]
      by_cases hr : 0 < (rest.map List.length).sum
      · have htail := ih (d + ch.length) hr
        have := getLast?_cons_of_some (d + ch.length) _ _ htail
        rw [this]
        rw [Nat.add_assoc]
      · have hz : (rest.map List.length).sum = 0 := Nat.eq_zero_of_not_pos hr
        rw [progressTrace_nil_of_sum_zero rest (d + ch.length) hz]
        rw [hz, Nat.add_zero]
        rfl

/-- The progress trace has one entry per non-empty chunk. -/
theorem progressTrace_length (chunks : List Chunk) :
    ∀ d, (progressTrace d chunks).length =
      (chunks.filter (fun c => !c.isEmpty)).length := by
  induction chunks with
  | nil => intro d; rfl
  | cons ch rest ih =>
    intro d
    rw [progressTrace, List.filter_cons]
    by_cases hch : ch.isEmpty = true
    · rw [if_pos hch]
      have : (!ch.isEmpty) = false := by rw [hch]; rfl
      rw [this]
      simp only [Bool.false_eq_true, if_false]
      exact ih d
    · have hb : ch.isEmpty = false := Bool.not_eq_true _ ▸ hch
      have : (!ch.isEmpty) = true := by rw [hb]; rfl
      rw [if_neg hch, this]
      simp only [if_true, List.length_cons]
      rw [ih (d + ch.length)]

/-- Extracting the reported values from a mapped progress trace recovers
the trace. -/
theorem progressValues_map_trace (total : Nat) (l : List Nat) :
    progressValues (l.map (fun d => DlEvent.progress d total)) = l := by
  induction l with
  | nil => rfl
  | cons x xs ih =>
    rw [List.map_cons]
    show x :: progressValues (xs.map (fun d => DlEvent.progress d total)) = x :: xs
    rw [ih]

/-! Claim theorems. -/

/-- Claim C1: for every resolution that succeeds, the returned VideoInfo
url equals the first element of the record's video.play_addr.url_list with
every occurrence of the substring playwm replaced by play. -/
theorem resolution_url_is_playwm_replaced
    (net : String → HttpResponse) (loads : String → Except PyErr Json)
    (share : String) (info : VideoInfo) (log : List String) (vid : String) (j : Json)
    (hp : parse_share_url net loads share = (Except.ok info, log))
    (hr : (routerJson net loads share).1 = Except.ok (vid, j)) :
    (rawPlayUrl j).map (fun r => replaceAll r ("playwm") ("play")) = Except.ok info.url := by
  obtain ⟨vid', j', hr', hb⟩ := parse_ok_elim net loads share info log hp
  rw [hr'] at hr
  injection hr with hr
  injection hr with hv hj
  subst hv; subst hj
  obtain ⟨raw, d, hraw, _, hinfo⟩ := resolveBody_ok_elim vid' j' info hb
  rw [hraw]
  show Except.ok (replaceAll raw ("playwm") ("play")) = Except.ok info.url
  rw [hinfo]

/-- Witness for claim C1: the concrete resolution succeeds and its URL is
the playwm-substituted first playback URL. -/
theorem resolution_url_is_playwm_replaced_witness :
    parse_share_url wNet wLoads wShare = (Except.ok wInfo, wLog) ∧
    (routerJson wNet wLoads wShare).1 = Except.ok (wVid, wJson) ∧
    (rawPlayUrl wJson).map (fun r => replaceAll r ("playwm") ("play")) = Except.ok wInfo.url :=
  ⟨rfl, rfl,
    resolution_url_is_playwm_replaced wNet wLoads wShare wInfo wLog wVid wJson rfl rfl⟩

/-- Claim C2: with the video page key present the record comes from that
key and the note page key is never consulted (removing its binding does
not change the result); with only the note page key present the record
comes from the note key; with neither key present the dispatch fails with
the dedicated Exception, which differs from every ValueError and hence
from the generic parse failure. -/
theorem loader_key_dispatch (fields : List (String × Json)) :
    (∀ v, fields.lookup videoPageKey = some v →
      extractRecord (Json.obj fields) = v.getKey ("videoInfoRes") ∧
      extractRecord (Json.obj fields) =
        extractRecord (Json.obj (fields.filter (fun p => p.1 != notePageKey)))) ∧
    (fields.lookup videoPageKey = none →
      ∀ v, fields.lookup notePageKey = some v →
        extractRecord (Json.obj fields) = v.getKey ("videoInfoRes")) ∧
    (fields.lookup videoPageKey = none → fields.lookup notePageKey = none →
      extractRecord (Json.obj fields) =
        Except.error (PyErr.exception ("无法从JSON中解析视频或图集信息")) ∧
      ∀ m, PyErr.exception ("无法从JSON中解析视频或图集信息") ≠ PyErr.valueError m) := by
  refine ⟨?_, ?_, ?_⟩
  · intro v hv
    have hf := lookup_filter_other fields videoPageKey notePageKey (by decide)
    constructor
    · simp [extractRecord, Json.hasMember, Json.getKey, hv]
    · simp [extractRecord, Json.hasMember, Json.getKey, hv, hf]
  · intro hv v hn
    simp [extractRecord, Json.hasMember, Json.getKey, hv, hn]
  · intro hv hn
    refine ⟨?_, ?_⟩
    · simp [extractRecord, Json.hasMember, Json.getKey, hv, hn]
    · intro m h
      exact PyErr.noConfusion h

/-- Witness for claim C2: a loaderData object holding only the video page
key dispatches to that key. -/
theorem loader_key_dispatch_witness :
    ([(videoPageKey, Json.obj [(("videoInfoRes"), Json.str ("R"))])].lookup videoPageKey =
      some (Json.obj [(("videoInfoRes"), Json.str ("R"))])) ∧
    extractRecord (Json.obj [(videoPageKey, Json.obj [(("videoInfoRes"), Json.str ("R"))])]) =
      Except.ok (Json.str ("R")) := by
  refine ⟨rfl, ?_⟩
  have h := (loader_key_dispatch [(videoPageKey, Json.obj [(("videoInfoRes"), Json.str ("R"))])]).1
    (Json.obj [(("videoInfoRes"), Json.str ("R"))]) rfl
  rw [h.1]
  rfl

/-- Claim C3: the title of every successfully resolved VideoInfo contains
none of the characters the sanitizing substitution of server.py line 87
replaces, since the substitution runs before the VideoInfo is assembled. -/
theorem resolved_title_has_no_illegal_chars
    (net : String → HttpResponse) (loads : String → Except PyErr Json)
    (share : String) (info : VideoInfo) (log : List String)
    (hp : parse_share_url net loads share = (Except.ok info, log)) :
    noIllegal info.title = true := by
  obtain ⟨vid, j, _, hb⟩ := parse_ok_elim net loads share info log hp
  obtain ⟨raw, d, _, _, hinfo⟩ := resolveBody_ok_elim vid j info hb
  rw [hinfo]
  exact noIllegal_sanitize d

/-- Witness for claim C3: the concrete resolution succeeds and its title
passes the illegal-character check. -/
theorem resolved_title_has_no_illegal_chars_witness :
    parse_share_url wNet wLoads wShare = (Except.ok wInfo, wLog) ∧
    noIllegal wInfo.title = true :=
  ⟨rfl, resolved_title_has_no_illegal_chars wNet wLoads wShare wInfo wLog rfl⟩

/-- Claim C4: when the URL pattern finds no match in the share text, the
resolution fails with the no-valid-link ValueError and the request log is
empty, so no HTTP request is issued. -/
theorem no_url_no_request
    (net : String → HttpResponse) (loads : String → Except PyErr Json) (share : String)
    (h : findUrls share = []) :
    parse_share_url net loads share =
      (Except.error (PyErr.valueError ("未找到有效的分享链接")), []) := by
  unfold parse_share_url routerJson
  rw [h]

/-- Witness for claim C4: a share text without a URL yields the
no-valid-link error and an empty request log. -/
theorem no_url_no_request_witness :
    findUrls ("今天天气不错") = [] ∧
    parse_share_url wNet wLoads ("今天天气不错") =
      (Except.error (PyErr.valueError ("未找到有效的分享链接")), []) :=
  ⟨rfl, no_url_no_request wNet wLoads ("今天天气不错") rfl⟩

/-- Claim C5: the link tool and the info tool never surface an exception,
and every internal error becomes their JSON error envelope; the download
tool propagates every internal error unchanged, both from the resolution
stage and from the download stage. -/
theorem tool_error_boundaries :
    (∀ (net : String → HttpResponse) (loads : String → Except PyErr Json) (s : String),
      ∃ j, get_douyin_download_link net loads s = Except.ok j) ∧
    (∀ (net : String → HttpResponse) (loads : String → Except PyErr Json) (s : String)
      (e : PyErr), (parse_share_url net loads s).1 = Except.error e →
      get_douyin_download_link net loads s =
        Except.ok (errEnvelope (("获取下载链接失败: ") ++ e.str))) ∧
    (∀ (net : String → HttpResponse) (loads : String → Except PyErr Json) (s : String),
      ∃ j, parse_douyin_video_info net loads s = Except.ok j) ∧
    (∀ (net : String → HttpResponse) (loads : String → Except PyErr Json) (s : String)
      (e : PyErr), (parse_share_url net loads s).1 = Except.error e →
      parse_douyin_video_info net loads s = Except.ok (errEnvelope e.str)) ∧
    (∀ (net : String → HttpResponse) (loads : String → Except PyErr Json)
      (dl : String → DlResponse) (s : String) (e : PyErr),
      (parse_share_url net loads s).1 = Except.error e →
      (download_douyin_video net loads dl s).1 = Except.error e) ∧
    (∀ (net : String → HttpResponse) (loads : String → Except PyErr Json)
      (dl : String → DlResponse) (s : String) (vi : VideoInfo),
      (parse_share_url net loads s).1 = Except.ok vi →
      ∀ (e : PyErr) (evs : List DlEvent),
        download_video ("../tmp") vi (dl vi.url) = (Except.error e, evs) →
        (download_douyin_video net loads dl s).1 = Except.error e) := by
  refine ⟨?_, ?_, ?_, ?_, ?_, ?_⟩
  · intro net loads s
    unfold get_douyin_download_link
    cases h : (parse_share_url net loads s).1 with
    | error e => exact ⟨_, rfl⟩
    | ok vi => exact ⟨_, rfl⟩
  · intro net loads s e h
    unfold get_douyin_download_link
    rw [h]
  · intro net loads s
    unfold parse_douyin_video_info
    cases h : (parse_share_url net loads s).1 with
    | error e => exact ⟨_, rfl⟩
    | ok vi => exact ⟨_, rfl⟩
  · intro net loads s e h
    unfold parse_douyin_video_info
    rw [h]
  · intro net loads dl s e h
    unfold download_douyin_video
    rw [h]
  · intro net loads dl s vi h e evs hd
    unfold download_douyin_video
    simp only [h, hd]

/-- Witness for claim C5: on a share text without a URL the guarded tool
answers with the error envelope while the download tool surfaces the
ValueError itself. -/
theorem tool_error_boundaries_witness :
    (parse_share_url wNet wLoads ("没有链接")).1 =
      Except.error (PyErr.valueError ("未找到有效的分享链接")) ∧
    get_douyin_download_link wNet wLoads ("没有链接") =
      Except.ok (errEnvelope (("获取下载链接失败: ") ++ ("未找到有效的分享链接"))) ∧
    (download_douyin_video wNet wLoads (fun _ => ⟨true, none, []⟩) ("没有链接")).1 =
      Except.error (PyErr.valueError ("未找到有效的分享链接")) :=
  ⟨rfl,
    tool_error_boundaries.2.1 wNet wLoads ("没有链接")
      (PyErr.valueError ("未找到有效的分享链接")) rfl,
    tool_error_boundaries.2.2.2.2.1 wNet wLoads (fun _ => ⟨true, none, []⟩) ("没有链接")
      (PyErr.valueError ("未找到有效的分享链接")) rfl⟩

/-- Counterexample to claim C6: with an unknown total (no content-length)
a non-empty chunk is written to the file yet no progress event is
emitted, because the report sits under the positive-total guard of
server.py line 115. -/
theorem progress_omitted_when_total_unknown :
    download_video ("../tmp") ⟨("u"), ("t"), ("i")⟩ ⟨true, none, [[7]]⟩ =
      (Except.ok (("../tmp/t.mp4"), [7]),
        [DlEvent.info ("正在下载视频: t"), DlEvent.info ("视频下载完成: ../tmp/t.mp4")]) := rfl

/-- Claim C6 as amended: the progress sink is invoked once per non-empty
chunk when the declared total size is positive, and is never invoked when
the total size is zero or absent. -/
theorem progress_reports_iff_total_positive :
    (∀ (total : Nat) (chunks : List Chunk), 0 < total →
      ((downloadLoop total chunks).2.2.filter isProgressEv).length =
        (chunks.filter (fun c => !c.isEmpty)).length) ∧
    (∀ chunks : List Chunk, (downloadLoop 0 chunks).2.2 = []) := by
  constructor
  · intro total chunks ht
    rw [downloadLoop_eq, if_pos ht]
    show (((progressTrace 0 chunks).map (fun d => DlEvent.progress d total)).filter
      isProgressEv).length = _
    have hall : ((progressTrace 0 chunks).map (fun d => DlEvent.progress d total)).filter
        isProgressEv = (progressTrace 0 chunks).map (fun d => DlEvent.progress d total) := by
      apply List.filter_eq_self.mpr
      intro e he
      obtain ⟨d, _, rfl⟩ := List.mem_map.mp he
      rfl
    rw [hall, List.length_map, progressTrace_length]
  · intro chunks
    rw [downloadLoop_eq]
    simp

/-- Witness for the amended claim C6: with a positive total, one report
per non-empty chunk. -/
theorem progress_reports_iff_total_positive_witness :
    0 < 1 ∧
    ((downloadLoop 1 [[2], []]).2.2.filter isProgressEv).length =
      (([[2], []] : List Chunk).filter (fun c => !c.isEmpty)).length :=
  ⟨Nat.one_pos, progress_reports_iff_total_positive.1 1 [[2], []] Nat.one_pos⟩

/-- Claim C7: a download with a positive declared length whose stream
carries exactly that many bytes writes exactly that many bytes to the
file, and the reported downloaded values are monotonically non-decreasing
and end at the total. -/
theorem known_length_download (total : Nat) (chunks : List Chunk)
    (hpos : 0 < total) (hsum : (chunks.map List.length).sum = total) :
    (downloadLoop total chunks).1.length = total ∧
    List.Chain' (fun a b => a ≤ b) (progressValues (downloadLoop total chunks).2.2) ∧
    (progressValues (downloadLoop total chunks).2.2).getLast? = some total := by
  rw [downloadLoop_eq, if_pos hpos]
  refine ⟨?_, ?_, ?_⟩
  · show chunks.flatten.length = total
    rw [List.length_flatten, hsum]
  · show List.Chain' (fun a b => a ≤ b)
      (progressValues ((progressTrace 0 chunks).map (fun d => DlEvent.progress d total)))
    rw [progressValues_map_trace]
    exact progressTrace_chain chunks 0
  · show (progressValues ((progressTrace 0 chunks).map
      (fun d => DlEvent.progress d total))).getLast? = some total
    rw [progressValues_map_trace]
    have h0 : 0 < (chunks.map List.length).sum := by rw [hsum]; exact hpos
    rw [progressTrace_getLast chunks 0 h0, Nat.zero_add, hsum]

/-- Witness for claim C7 at a three-chunk stream of total length three. -/
theorem known_length_download_witness :
    0 < 3 ∧ (([[1, 2], [], [3]] : List Chunk).map List.length).sum = 3 ∧
    (downloadLoop 3 [[1, 2], [], [3]]).1.length = 3 ∧
    List.Chain' (fun a b => a ≤ b) (progressValues (downloadLoop 3 [[1, 2], [], [3]]).2.2) ∧
    (progressValues (downloadLoop 3 [[1, 2], [], [3]]).2.2).getLast? = some 3 :=
  ⟨by decide, by decide, known_length_download 3 [[1, 2], [], [3]] (by decide) (by decide)⟩

/-- Claim C8: when the record's description is absent or blank after
stripping, the returned title is the sanitized douyin prefix joined with
the extracted video id; otherwise it is the sanitized stripped
description. -/
theorem title_from_description_selection
    (net : String → HttpResponse) (loads : String → Except PyErr Json)
    (share : String) (info : VideoInfo) (log : List String)
    (vid : String) (j : Json) (s : String)
    (hp : parse_share_url net loads share = (Except.ok info, log))
    (hr : (routerJson net loads share).1 = Except.ok (vid, j))
    (hd : rawDesc j = Except.ok s) :
    info.title = sanitize (if pyStrip s = "" then ("douyin_") ++ vid else pyStrip s) := by
  obtain ⟨vid', j', hr', hb⟩ := parse_ok_elim net loads share info log hp
  rw [hr'] at hr
  injection hr with hr
  injection hr with hv hj
  subst hv; subst hj
  obtain ⟨raw, d, _, hdesc, hinfo⟩ := resolveBody_ok_elim vid' j' info hb
  unfold descOf at hdesc
  rw [hd] at hdesc
  injection hdesc with hdesc
  rw [hinfo]
  show sanitize d = sanitize (if pyStrip s = "" then ("douyin_") ++ vid' else pyStrip s)
  rw [hdesc]

/-- Witness for claim C8: the concrete resolution selects and sanitizes
the non-blank stripped description. -/
theorem title_from_description_selection_witness :
    parse_share_url wNet wLoads wShare = (Except.ok wInfo, wLog) ∧
    (routerJson wNet wLoads wShare).1 = Except.ok (wVid, wJson) ∧
    rawDesc wJson = Except.ok ("A:B Test") ∧
    wInfo.title = sanitize (if pyStrip ("A:B Test") = "" then ("douyin_") ++ wVid
      else pyStrip ("A:B Test")) :=
  ⟨rfl, rfl, rfl,
    title_from_description_selection wNet wLoads wShare wInfo wLog wVid wJson
      ("A:B Test") rfl rfl rfl⟩

/-- Claim C9: a processor built by the initializer carries no temp_dir
attribute, so the finalizer removes no directory regardless of the
filesystem state, and the cache directory setting persists. -/
theorem finalizer_removes_nothing :
    ∀ (share : String) (dirExists : String → Bool),
      (DouyinProcessor.init share).temp_dir = none ∧
      (DouyinProcessor.init share).cache_dir = ("../tmp") ∧
      DouyinProcessor.del (DouyinProcessor.init share) dirExists = [] :=
  fun _ _ => ⟨rfl, rfl, rfl⟩

/-- Claim C10: the downloaded counter always equals the number of bytes
written to the file, the file receives exactly the concatenation of the
chunks (empty chunks contribute nothing, non-empty chunks their full
content once), and immediately after any non-empty chunk the last
progress event reports exactly the bytes written so far. -/
theorem progress_counts_equal_written_bytes :
    (∀ (total : Nat) (chunks : List Chunk),
      (downloadLoop total chunks).2.1 = (downloadLoop total chunks).1.length) ∧
    (∀ (total : Nat) (chunks : List Chunk),
      (downloadLoop total chunks).1 = chunks.flatten) ∧
    (∀ (total : Nat) (p : List Chunk) (c : Chunk), c.isEmpty = false → 0 < total →
      (downloadLoop total (p ++ [c])).2.2.getLast? =
        some (DlEvent.progress (downloadLoop total (p ++ [c])).1.length total)) := by
  refine ⟨?_, ?_, ?_⟩
  · intro total chunks
    rw [downloadLoop_eq]
    show (chunks.map List.length).sum = chunks.flatten.length
    rw [List.length_flatten]
  · intro total chunks
    rw [downloadLoop_eq]
  · intro total p c hc ht
    have hsplit : downloadLoop total (p ++ [c]) =
        processChunk total (downloadLoop total p) c := by
      rw [downloadLoop, downloadLoop, List.foldl_append]
      rfl
    have hproc : processChunk total (downloadLoop total p) c =
        ((downloadLoop total p).1 ++ c, (downloadLoop total p).2.1 + c.length,
          (downloadLoop total p).2.2 ++
            [DlEvent.progress ((downloadLoop total p).2.1 + c.length) total]) := by
      simp [processChunk, hc, ht]
    rw [hsplit, hproc]
    show ((downloadLoop total p).2.2 ++
      [DlEvent.progress ((downloadLoop total p).2.1 + c.length) total]).getLast? =
      some (DlEvent.progress ((downloadLoop total p).1 ++ c).length total)
    rw [List.getLast?_concat]
    have hlen : (downloadLoop total p).2.1 + c.length =
        ((downloadLoop total p).1 ++ c).length := by
      rw [List.length_append, downloadLoop_eq]
      show (p.map List.length).sum + c.length = p.flatten.length + c.length
      rw [List.length_flatten]
    rw [hlen]

/-- Witness for claim C10: one non-empty chunk with a known total reports
exactly the written byte count. -/
theorem progress_counts_equal_written_bytes_witness :
    ([5] : Chunk).isEmpty = false ∧ 0 < 1 ∧
    (downloadLoop 1 ([] ++ [[5]])).2.2.getLast? =
      some (DlEvent.progress (downloadLoop 1 ([] ++ [[5]])).1.length 1) :=
  ⟨rfl, Nat.one_pos, progress_counts_equal_written_bytes.2.2 1 [] [5] rfl Nat.one_pos⟩

end DouyinMCP
